import Mathlib

/-!
Shallow embedding of the multi-backend status and query layer of the
repository (helper_mcp.py, helper_mcp_pages.py, a_mcp_sample.py).

Python strings are modelled as `List Char`.  `str.strip`, `str.split`,
`str.upper`, `str.startswith`, slicing `str[:50]` and the substring
test `x in s` are modelled by the functions below; `str.upper` is
modelled ASCII-only and `strip`/`split` use the ASCII whitespace set,
which is faithful on the command alphabets appearing in the source.
Network effects are passed in explicitly: every probe and executor
takes the outcome of its single network interaction as an argument
(`Except` for calls that may raise, a status code for HTTP calls).
-/

namespace McpCore

/-- ASCII whitespace, the separator set of `str.strip()` / `str.split()`. -/
def pyIsSpace (c : Char) : Bool :=
  c == ' ' || c == '\t' || c == '\n' || c == '\r' || c == '\x0b' || c == '\x0c'

/-- Python `str.strip()` with no argument (whitespace at both ends). -/
def pyStripChars (l : List Char) : List Char :=
  ((l.dropWhile pyIsSpace).reverse.dropWhile pyIsSpace).reverse

/-- Helper for `pySplit`; `acc` holds the current word, reversed. -/
def pySplitAux : List Char → List Char → List (List Char)
  | [], acc => if acc = [] then [] else [acc.reverse]
  | c :: rest, acc =>
    if pyIsSpace c then
      if acc = [] then pySplitAux rest [] else acc.reverse :: pySplitAux rest []
    else pySplitAux rest (c :: acc)

/-- Python `str.split()` with no separator: split on whitespace runs,
producing no empty words. -/
def pySplit (l : List Char) : List (List Char) := pySplitAux l []

/-- Python `str.upper()` (ASCII letters only). -/
def pyUpperChars (l : List Char) : List Char := l.map Char.toUpper

/-- Python `s.startswith(pat)`, as `startsWithChars pat s`. -/
def startsWithChars : List Char → List Char → Bool
  | [], _ => true
  | _ :: _, [] => false
  | p :: ps, c :: cs => p == c && startsWithChars ps cs

/-- Python `needle in hay` on strings: contiguous substring test. -/
def containsSeq (needle : List Char) : List Char → Bool
  | [] => needle.isEmpty
  | c :: rest => startsWithChars needle (c :: rest) || containsSeq needle rest

/-- Decimal rendering of a natural number, as Python `str(n)` in an f-string. -/
def natToChars (n : Nat) : List Char := (Nat.repr n).data

/-- Association lookup, modelling Python dict indexing over our
list-modelled dicts (no key occurs twice in any dict built here). -/
def lookupField {β : Type} (k : List Char) : List (List Char × β) → Option β
  | [] => none
  | (k', v) :: rest => if k' = k then some v else lookupField k rest

/-- Helper for `pyInt`: accumulate decimal digits; a non-digit fails. -/
def digitsValAux : List Char → Nat → Option Nat
  | [], acc => some acc
  | c :: rest, acc =>
    if c.isDigit then digitsValAux rest (acc * 10 + (c.toNat - '0'.toNat)) else none

/-- Digit-string value; the empty string is invalid, as for Python `int("")`. -/
def digitsVal : List Char → Option Nat
  | [] => none
  | l => digitsValAux l 0

/-- Python `int(s)` on a whitespace-free token: optional sign, then
decimal digits (`ValueError`, modelled as `none`, otherwise). -/
def pyInt : List Char → Option Int
  | '+' :: rest => (digitsVal rest).map (fun n => (n : Int))
  | '-' :: rest => (digitsVal rest).map (fun n => -(n : Int))
  | l => (digitsVal l).map (fun n => (n : Int))

/-- Result record of a manager's `check_connection`: the
`{"status": ..., "details": ...}` dict. -/
structure ConnStatus where
  status : List Char
  details : List Char
  deriving DecidableEq

/-- RedisManager.check_connection: `ping()` either succeeds or raises `e`;
on failure `details` is `str(e)[:50]`. -/
def redisCheckConnection : Except (List Char) Unit → ConnStatus
  | .ok _ => ⟨"🟢 接続OK".data, "正常".data⟩
  | .error e => ⟨"🔴 接続NG".data, e.take 50⟩

/-- PostgreSQLManager.check_connection: `connect` then `close`, or raises;
same result shape as the Redis probe. -/
def pgCheckConnection : Except (List Char) Unit → ConnStatus
  | .ok _ => ⟨"🟢 接続OK".data, "正常".data⟩
  | .error e => ⟨"🔴 接続NG".data, e.take 50⟩

/-- ElasticsearchManager.check_connection: GET `_cluster/health`; status
code 200 is OK, any other code reports `Status: <code>`, and a raised
exception reports `str(e)[:50]`. -/
def esCheckConnection : Except (List Char) Nat → ConnStatus
  | .ok code =>
    if code = 200 then ⟨"🟢 接続OK".data, "正常".data⟩
    else ⟨"🔴 接続NG".data, "Status: ".data ++ natToChars code⟩
  | .error e => ⟨"🔴 接続NG".data, e.take 50⟩

/-- QdrantManager.check_connection: GET `/`; same shape as the
Elasticsearch probe. -/
def qdrantCheckConnection : Except (List Char) Nat → ConnStatus
  | .ok code =>
    if code = 200 then ⟨"🟢 接続OK".data, "正常".data⟩
    else ⟨"🔴 接続NG".data, "Status: ".data ++ natToChars code⟩
  | .error e => ⟨"🔴 接続NG".data, e.take 50⟩

/-- The four backends registered by ServerStatusManager. -/
inductive Backend
  | redis
  | pg
  | es
  | qdrant
  deriving DecidableEq

/-- One network outcome per backend for a single `check_all_servers` run. -/
structure ProbeEnv where
  redis : Except (List Char) Unit
  pg : Except (List Char) Unit
  es : Except (List Char) Nat
  qdrant : Except (List Char) Nat

/-- Dict key of each manager in ServerStatusManager.managers. -/
def backendName : Backend → List Char
  | .redis => "Redis".data
  | .pg => "PostgreSQL".data
  | .es => "Elasticsearch".data
  | .qdrant => "Qdrant".data

/-- Registration order of ServerStatusManager.managers. -/
def registeredBackends : List Backend := [.redis, .pg, .es, .qdrant]

/-- The status entry each manager contributes, given its network outcome. -/
def entryOf (env : ProbeEnv) : Backend → ConnStatus
  | .redis => redisCheckConnection env.redis
  | .pg => pgCheckConnection env.pg
  | .es => esCheckConnection env.es
  | .qdrant => qdrantCheckConnection env.qdrant

/-- ServerStatusManager.check_all_servers: one `check_connection` per
manager, collected into the status dict in registration order. -/
def checkAllServers (env : ProbeEnv) : List (List Char × ConnStatus) :=
  registeredBackends.map (fun b => (backendName b, entryOf env b))

/-- The health test used throughout the source: `"🟢" in status["status"]`. -/
def isHealthy (s : ConnStatus) : Bool := containsSeq "🟢".data s.status

/-- Whether a backend's probe raised (threw / timed out) in this run. -/
def probeFailed (env : ProbeEnv) : Backend → Bool
  | .redis => match env.redis with | .error _ => true | .ok _ => false
  | .pg => match env.pg with | .error _ => true | .ok _ => false
  | .es => match env.es with | .error _ => true | .ok _ => false
  | .qdrant => match env.qdrant with | .error _ => true | .ok _ => false

/-- Agreement of two runs on one backend's own network outcome. -/
def envAgreeAt (env env' : ProbeEnv) : Backend → Prop
  | .redis => env.redis = env'.redis
  | .pg => env.pg = env'.pg
  | .es => env.es = env'.es
  | .qdrant => env.qdrant = env'.qdrant

/-- Values stored in a summary dict: strings, numbers, or string lists. -/
inductive SummaryVal
  | s (v : List Char)
  | n (v : Nat)
  | ls (v : List (List Char))
  deriving DecidableEq

/-- RedisManager.get_data_summary's counting loop over `scan_iter()`:
increment per key and bail out as soon as the count exceeds 1000;
`Sum.inl` is the early return, `Sum.inr` the completed count. -/
def scanCountLoop : List (List Char) → Nat → Sum Nat Nat
  | [], count => .inr count
  | _ :: rest, count =>
    if count + 1 > 1000 then .inl (count + 1) else scanCountLoop rest (count + 1)

/-- RedisManager.get_data_summary: count keys via `scan_iter`, bail out to
a `partial` summary past 1000 keys, otherwise report the exact count plus
the `session:*` and `counter:*` key counts (the glob patterns used there
match exactly the keys with those prefixes); any raised exception yields
an `error` summary. -/
def redisGetDataSummary (scan : Except (List Char) (List (List Char))) :
    List (List Char × SummaryVal) :=
  match scan with
  | .error _ => [("key_count".data, .s "?".data), ("status".data, .s "error".data)]
  | .ok keys =>
    match scanCountLoop keys 0 with
    | .inl c =>
      [("key_count".data, .s (natToChars c ++ "+".data)),
       ("status".data, .s "partial".data)]
    | .inr c =>
      [("key_count".data, .s (natToChars c)),
       ("status".data, .s "complete".data),
       ("session_count".data,
         .n (keys.filter (fun k => startsWithChars "session:".data k)).length),
       ("counter_count".data,
         .n (keys.filter (fun k => startsWithChars "counter:".data k)).length)]

/-- PostgreSQLManager.get_data_summary: three COUNT queries (customers,
orders, products) on success, an `error` summary on any exception. -/
def pgGetDataSummary (q : Except (List Char) (Nat × Nat × Nat)) :
    List (List Char × SummaryVal) :=
  match q with
  | .error _ => [("table_count".data, .s "?".data), ("status".data, .s "error".data)]
  | .ok (c, o, p) =>
    [("table_count".data, .n 3), ("customers".data, .n c),
     ("orders".data, .n o), ("products".data, .n p),
     ("status".data, .s "complete".data)]

/-- ElasticsearchManager.get_data_summary: `_count` request; a non-200
status code or a raised exception yields an `error` summary. -/
def esGetDataSummary (q : Except (List Char) (Nat × Nat)) :
    List (List Char × SummaryVal) :=
  match q with
  | .error _ =>
    [("document_count".data, .s "?".data), ("status".data, .s "error".data)]
  | .ok (code, count) =>
    if code = 200 then
      [("document_count".data, .n count), ("status".data, .s "complete".data)]
    else [("document_count".data, .s "?".data), ("status".data, .s "error".data)]

/-- QdrantManager.get_data_summary: `/collections` request; a non-200
status code or a raised exception yields an `error` summary. -/
def qdrantGetDataSummary (q : Except (List Char) (Nat × List (List Char))) :
    List (List Char × SummaryVal) :=
  match q with
  | .error _ =>
    [("collection_count".data, .s "?".data), ("status".data, .s "error".data)]
  | .ok (code, cols) =>
    if code = 200 then
      [("collection_count".data, .n cols.length),
       ("collections".data, .ls cols),
       ("status".data, .s "complete".data)]
    else [("collection_count".data, .s "?".data), ("status".data, .s "error".data)]

/-- Status field of a summary dict. -/
def summaryStatus (m : List (List Char × SummaryVal)) : Option SummaryVal :=
  lookupField "status".data m

/-- One validated Redis call issued by the command executor (the source
additionally sorts the KEYS/SMEMBERS results before display, which is
result post-processing outside the gate itself). -/
inductive RedisCall
  | keys (pattern : List Char)
  | get (key : List Char)
  | hgetall (key : List Char)
  | smembers (key : List Char)
  | lrange (key : List Char) (start stop : Int)
  deriving DecidableEq

/-- Outcome of DirectQueryPage._execute_redis_command: a backend call, an
`st.error` rejection message (after which the function returns None), or
an uncaught exception (IndexError from `cmd_parts[0]` on an empty token
list, ValueError from `int()` on a non-numeric LRANGE bound). -/
inductive RedisExecResult
  | executed (call : RedisCall)
  | errorMsg (msg : List Char)
  | indexError
  | valueError
  deriving DecidableEq

/-- Command dispatch of _execute_redis_command on the token list
`cmd_parts`; taking `cmd_parts[0]` of an empty list raises IndexError. -/
def execRedisParts : List (List Char) → RedisExecResult
  | [] => .indexError
  | first :: args =>
    if pyUpperChars first = "KEYS".data then
      match args with
      | [] => .executed (.keys "*".data)
      | p :: _ => .executed (.keys p)
    else if pyUpperChars first = "GET".data then
      match args with
      | [] => .errorMsg "GET コマンドにはキーを指定してください".data
      | k :: _ => .executed (.get k)
    else if pyUpperChars first = "HGETALL".data then
      match args with
      | [] => .errorMsg "HGETALL コマンドにはキーを指定してください".data
      | k :: _ => .executed (.hgetall k)
    else if pyUpperChars first = "SMEMBERS".data then
      match args with
      | [] => .errorMsg "SMEMBERS コマンドにはキーを指定してください".data
      | k :: _ => .executed (.smembers k)
    else if pyUpperChars first = "LRANGE".data then
      match args with
      | k :: s :: e :: _ =>
        (match pyInt s, pyInt e with
         | some si, some ei => .executed (.lrange k si ei)
         | _, _ => .valueError)
      | _ => .errorMsg "LRANGE コマンドの形式: LRANGE key start stop".data
    else .errorMsg ("サポートされていないコマンドです: ".data ++ pyUpperChars first)

/-- DirectQueryPage._execute_redis_command:
`cmd_parts = command.strip().split()`, then dispatch on the first token
uppercased. -/
def executeRedisCommand (command : List Char) : RedisExecResult :=
  execRedisParts (pySplit (pyStripChars command))

/-- The verbs the Redis command gate accepts. -/
def redisAllowedVerbs : List (List Char) :=
  ["KEYS".data, "GET".data, "HGETALL".data, "SMEMBERS".data, "LRANGE".data]

/-- Network call kinds of the PostgreSQL direct-query flow. -/
inductive PgNetCall
  | healthProbe
  | sqlQuery
  deriving DecidableEq

/-- Outcome of the PostgreSQL direct-query flow. -/
inductive PgOutcome
  | executed
  | rejected
  | unavailableWarn
  deriving DecidableEq

/-- The SELECT-only test of the source:
`sql_query.strip().upper().startswith('SELECT')`. -/
def pgSelectCheck (sql : List Char) : Bool :=
  startsWithChars "SELECT".data (pyUpperChars (pyStripChars sql))

/-- DirectQueryPage._render_postgresql_query (the a_mcp_sample.py pg_exec
handler is identical): `check_connection` runs first, one probe network
call; if healthy, a command failing `pgSelectCheck` is refused with the
SELECT-only error, otherwise `pd.read_sql` issues the query; if unhealthy
a connection warning is shown and nothing else runs. -/
def pgExecFlow (probeResult : ConnStatus) (sql : List Char) :
    PgOutcome × List PgNetCall :=
  if isHealthy probeResult then
    if pgSelectCheck sql = false then (.rejected, [.healthProbe])
    else (.executed, [.healthProbe, .sqlQuery])
  else (.unavailableWarn, [.healthProbe])

/-- Definition following the spec's words, for refinement comparison only:
"only statements whose first token (case-insensitive) is SELECT". -/
def specFirstTokenIsSelect (sql : List Char) : Bool :=
  match pySplit sql with
  | [] => false
  | t :: _ => pyUpperChars t = "SELECT".data

/-- Modelled from the spec: the source realizes status caching through the
`st.cache_data(ttl=30)` decorator on check_all_servers, whose cache
implementation lives inside the Streamlit library and is not part of the
source tree; the spec re-expresses it as a StatusCache of entries that
carry an `expiresAt` timestamp and expire lazily on read, with strict
`now > expiresAt` counting as expired. -/
structure CacheEntry (α : Type) where
  value : α
  expiresAt : Nat
  deriving DecidableEq

/-- Modelled from the spec: `StatusCache.get` looks the key up and returns
the entry only when it has not expired (`now > expiresAt` is expiry). -/
def statusCacheGet {α : Type} (store : List (List Char × CacheEntry α))
    (key : List Char) (now : Nat) : Option α :=
  match lookupField key store with
  | none => none
  | some e => if now > e.expiresAt then none else some e.value

/-- Concrete probe environment in which only the Redis probe raises. -/
def envW : ProbeEnv := ⟨.error "boom".data, .ok (), .ok 200, .ok 200⟩

/-- Concrete one-entry cache store exercising the expiry boundary. -/
def storeW : List (List Char × CacheEntry Nat) := [("Redis".data, ⟨7, 30⟩)]

/-- Concrete key listing holding 1001 keys. -/
def keysW : List (List Char) := List.replicate 1001 "k".data

/-- Every list is a prefix of itself under the source's startswith model. -/
theorem startsWithChars_self (l : List Char) : startsWithChars l l = true := by
  induction l with
  | nil => rfl
  | cons c cs ih => simp [startsWithChars, ih]

/-- A string contains any of its suffixes as a substring. -/
theorem containsSeq_append_self (pre needle : List Char) :
    containsSeq needle (pre ++ needle) = true := by
  induction pre with
  | nil =>
    cases needle with
    | nil => rfl
    | cons c cs => simp [containsSeq, startsWithChars_self]
  | cons c cs ih => simp [containsSeq, ih]

/-- Dropping a satisfied predicate from an all-satisfying list empties it. -/
theorem dropWhile_of_all (l : List Char) (h : ∀ c ∈ l, pyIsSpace c = true) :
    l.dropWhile pyIsSpace = [] := by
  induction l with
  | nil => rfl
  | cons c cs ih =>
    have hc := h c (List.mem_cons_self _ _)
    rw [List.dropWhile_cons, if_pos hc]
    exact ih (fun x hx => h x (List.mem_cons_of_mem _ hx))

/-- Stripping a whitespace-only string yields the empty string. -/
theorem pyStrip_all_space (l : List Char) (h : ∀ c ∈ l, pyIsSpace c = true) :
    pyStripChars l = [] := by
  unfold pyStripChars
  rw [dropWhile_of_all l h]
  rfl

/-- Closed form of the scan counting loop: starting below the bound, it
either bails out at 1001 or completes with the exact count. -/
theorem scanCountLoop_spec (keys : List (List Char)) :
    ∀ c : Nat, c ≤ 1000 →
      scanCountLoop keys c =
        if 1001 ≤ c + keys.length then Sum.inl 1001 else Sum.inr (c + keys.length) := by
  induction keys with
  | nil =>
    intro c hc
    simp only [scanCountLoop, List.length_nil, Nat.add_zero]
    rw [if_neg (by omega)]
  | cons k rest ih =>
    intro c hc
    simp only [scanCountLoop, List.length_cons]
    by_cases h1 : c + 1 > 1000
    · rw [if_pos h1, if_pos (by omega)]
      have he : c + 1 = 1001 := by omega
      rw [he]
    · rw [if_neg h1, ih (c + 1) (by omega)]
      have h2 : c + 1 + rest.length = c + (rest.length + 1) := by omega
      rw [h2]

/-- C1: the spec claims a disallowed relational command is rejected with
CommandRejected regardless of backend health and without any network call
before the rejection; the code contradicts both parts: at
`DELETE FROM customers` with an unhealthy backend the flow produces the
connection warning, not a rejection, and the health-probe network call
happens unconditionally before the verb is even examined. -/
theorem C1_counterexample :
    pgExecFlow (pgCheckConnection (.error "no route".data))
        "DELETE FROM customers".data
      = (.unavailableWarn, [.healthProbe])
    ∧ PgOutcome.unavailableWarn ≠ PgOutcome.rejected
    ∧ ([PgNetCall.healthProbe] : List PgNetCall) ≠ [] :=
  ⟨by decide, by decide, by decide⟩

/-- C1 (amended): when a relational command fails the SELECT-prefix gate,
the SQL query network call never happens; the outcome is the SELECT-only
rejection exactly when the preceding health probe reported healthy and
the connection warning otherwise, and in both cases exactly one network
call — the health probe — is made. -/
theorem C1_thm (probeResult : ConnStatus) (sql : List Char)
    (h : pgSelectCheck sql = false) :
    (pgExecFlow probeResult sql).2 = [.healthProbe]
    ∧ PgNetCall.sqlQuery ∉ (pgExecFlow probeResult sql).2
    ∧ (isHealthy probeResult = true → (pgExecFlow probeResult sql).1 = .rejected)
    ∧ (isHealthy probeResult = false →
        (pgExecFlow probeResult sql).1 = .unavailableWarn) := by
  unfold pgExecFlow
  cases hh : isHealthy probeResult <;> simp [h, hh]

/-- C1 witness: the amended theorem at `DELETE FROM customers` against a
healthy probe. -/
theorem C1_witness :
    pgSelectCheck "DELETE FROM customers".data = false
    ∧ (pgExecFlow (pgCheckConnection (.ok ()))
        "DELETE FROM customers".data).1 = .rejected :=
  ⟨by decide,
    (C1_thm (pgCheckConnection (.ok ())) "DELETE FROM customers".data
      (by decide)).2.2.1 (by decide)⟩

/-- C2: the spec's rule "executed iff the first token, case-insensitively,
is SELECT" fails on the code: `SELECTX 1` is executed — the gate tests
only the string prefix — although its first token is SELECTX. -/
theorem C2_counterexample :
    (pgExecFlow (pgCheckConnection (.ok ())) "SELECTX 1".data).1 = .executed
    ∧ specFirstTokenIsSelect "SELECTX 1".data = false :=
  ⟨by decide, by decide⟩

/-- C2 (amended): a relational command is executed iff the probe reported
healthy and the stripped, uppercased command text starts with the prefix
SELECT (no token boundary is required); whenever that prefix test fails,
the SQL query call is never made. -/
theorem C2_thm (probeResult : ConnStatus) (sql : List Char) :
    ((pgExecFlow probeResult sql).1 = .executed
      ↔ (isHealthy probeResult = true ∧ pgSelectCheck sql = true))
    ∧ (pgSelectCheck sql = false →
        PgNetCall.sqlQuery ∉ (pgExecFlow probeResult sql).2) := by
  unfold pgExecFlow
  cases hh : isHealthy probeResult <;> cases hs : pgSelectCheck sql <;>
    simp [hh, hs]

/-- C2 witness: the amended theorem at a non-SELECT command. -/
theorem C2_witness :
    pgSelectCheck "DROP TABLE customers".data = false
    ∧ PgNetCall.sqlQuery ∉
        (pgExecFlow (pgCheckConnection (.ok ()))
          "DROP TABLE customers".data).2 :=
  ⟨by decide,
    (C2_thm (pgCheckConnection (.ok ())) "DROP TABLE customers".data).2
      (by decide)⟩

/-- Lookup skips an entry whose key differs. -/
theorem lookupField_cons_ne {β : Type} (k k' : List Char) (v : β)
    (rest : List (List Char × β)) (h : ¬ k' = k) :
    lookupField k ((k', v) :: rest) = lookupField k rest := by
  simp [lookupField, h]

/-- Lookup finds an entry whose key matches. -/
theorem lookupField_cons_eq {β : Type} (k : List Char) (v : β)
    (rest : List (List Char × β)) :
    lookupField k ((k, v) :: rest) = some v := by
  simp [lookupField]

/-- Truncation to 50 characters keeps a non-empty string non-empty. -/
theorem take50_ne_nil {m : List Char} (h : m ≠ []) : m.take 50 ≠ [] := by
  cases m with
  | nil => exact absurd rfl h
  | cons c cs => simp

/-- C3: the spec claims a command with a missing required argument is never
executed with a default argument substituted; the code contradicts it: a
bare `KEYS` silently defaults the missing pattern to `*` and executes. -/
theorem C3_counterexample :
    executeRedisCommand "KEYS".data = .executed (.keys "*".data) := by decide

/-- C3 (amended): a disallowed verb is refused with an error message that
names the (uppercased) offending verb, and the missing-argument forms of
GET, HGETALL, SMEMBERS and LRANGE are refused with errors naming the
command; the single exception is KEYS, whose missing pattern silently
defaults to `*` and is executed. -/
theorem C3_thm (command first : List Char) (args : List (List Char))
    (hp : pySplit (pyStripChars command) = first :: args) :
    (pyUpperChars first ∉ redisAllowedVerbs →
      executeRedisCommand command
          = .errorMsg ("サポートされていないコマンドです: ".data ++ pyUpperChars first)
        ∧ containsSeq (pyUpperChars first)
            ("サポートされていないコマンドです: ".data ++ pyUpperChars first) = true)
    ∧ (pyUpperChars first = "GET".data → args = [] →
        executeRedisCommand command
            = .errorMsg "GET コマンドにはキーを指定してください".data
          ∧ containsSeq "GET".data
              "GET コマンドにはキーを指定してください".data = true)
    ∧ (pyUpperChars first = "HGETALL".data → args = [] →
        executeRedisCommand command
          = .errorMsg "HGETALL コマンドにはキーを指定してください".data)
    ∧ (pyUpperChars first = "SMEMBERS".data → args = [] →
        executeRedisCommand command
          = .errorMsg "SMEMBERS コマンドにはキーを指定してください".data)
    ∧ (pyUpperChars first = "LRANGE".data → args.length < 3 →
        executeRedisCommand command
          = .errorMsg "LRANGE コマンドの形式: LRANGE key start stop".data)
    ∧ (pyUpperChars first = "KEYS".data → args = [] →
        executeRedisCommand command = .executed (.keys "*".data)) := by
  have hcmd : executeRedisCommand command = execRedisParts (first :: args) := by
    unfold executeRedisCommand
    rw [hp]
  refine ⟨?_, ?_, ?_, ?_, ?_, ?_⟩
  · intro hdis
    have h1 : ¬ pyUpperChars first = "KEYS".data :=
      fun h => hdis (by simp [redisAllowedVerbs, h])
    have h2 : ¬ pyUpperChars first = "GET".data :=
      fun h => hdis (by simp [redisAllowedVerbs, h])
    have h3 : ¬ pyUpperChars first = "HGETALL".data :=
      fun h => hdis (by simp [redisAllowedVerbs, h])
    have h4 : ¬ pyUpperChars first = "SMEMBERS".data :=
      fun h => hdis (by simp [redisAllowedVerbs, h])
    have h5 : ¬ pyUpperChars first = "LRANGE".data :=
      fun h => hdis (by simp [redisAllowedVerbs, h])
    rw [hcmd]
    simp only [execRedisParts]
    rw [if_neg h1, if_neg h2, if_neg h3, if_neg h4, if_neg h5]
    exact ⟨rfl, containsSeq_append_self _ _⟩
  · intro hv hargs
    subst hargs
    rw [hcmd]
    simp only [execRedisParts]
    rw [hv]
    exact ⟨rfl, by decide⟩
  · intro hv hargs
    subst hargs
    rw [hcmd]
    simp only [execRedisParts]
    rw [hv]
    decide
  · intro hv hargs
    subst hargs
    rw [hcmd]
    simp only [execRedisParts]
    rw [hv]
    decide
  · intro hv hlen
    rw [hcmd]
    simp only [execRedisParts]
    rw [hv]
    rcases args with _ | ⟨a, _ | ⟨b, _ | ⟨c, t⟩⟩⟩
    · rfl
    · rfl
    · rfl
    · exact absurd hlen (by simp)
  · intro hv hargs
    subst hargs
    rw [hcmd]
    simp only [execRedisParts]
    rw [hv]
    decide

/-- C3 witness: the amended theorem at the disallowed verb FLUSHALL. -/
theorem C3_witness :
    pySplit (pyStripChars "FLUSHALL".data) = ["FLUSHALL".data]
    ∧ executeRedisCommand "FLUSHALL".data
        = .errorMsg ("サポートされていないコマンドです: ".data
            ++ pyUpperChars "FLUSHALL".data) :=
  ⟨by decide,
    ((C3_thm "FLUSHALL".data "FLUSHALL".data [] (by decide)).1
      (by decide)).1⟩

/-- C4: one check_all_servers run yields exactly one status entry per
registered backend, in registration order; a backend whose probe raises
gets an unhealthy entry, and every other backend's entry is unchanged
between any two runs that agree on that backend's own network outcome. -/
theorem C4_thm (env env' : ProbeEnv) (b : Backend)
    (hfail : probeFailed env b = true)
    (hagree : ∀ b', b' ≠ b → envAgreeAt env env' b') :
    (checkAllServers env).map Prod.fst
        = ["Redis".data, "PostgreSQL".data, "Elasticsearch".data, "Qdrant".data]
    ∧ isHealthy (entryOf env b) = false
    ∧ (∀ b', b' ≠ b → entryOf env b' = entryOf env' b') := by
  refine ⟨rfl, ?_, ?_⟩
  · cases b with
    | redis =>
      cases h : env.redis with
      | ok u => simp [probeFailed, h] at hfail
      | error m =>
        have he : entryOf env Backend.redis = ⟨"🔴 接続NG".data, m.take 50⟩ := by
          simp [entryOf, h, redisCheckConnection]
        rw [he]
        show containsSeq "🟢".data "🔴 接続NG".data = false
        decide
    | pg =>
      cases h : env.pg with
      | ok u => simp [probeFailed, h] at hfail
      | error m =>
        have he : entryOf env Backend.pg = ⟨"🔴 接続NG".data, m.take 50⟩ := by
          simp [entryOf, h, pgCheckConnection]
        rw [he]
        show containsSeq "🟢".data "🔴 接続NG".data = false
        decide
    | es =>
      cases h : env.es with
      | ok u => simp [probeFailed, h] at hfail
      | error m =>
        have he : entryOf env Backend.es = ⟨"🔴 接続NG".data, m.take 50⟩ := by
          simp [entryOf, h, esCheckConnection]
        rw [he]
        show containsSeq "🟢".data "🔴 接続NG".data = false
        decide
    | qdrant =>
      cases h : env.qdrant with
      | ok u => simp [probeFailed, h] at hfail
      | error m =>
        have he : entryOf env Backend.qdrant = ⟨"🔴 接続NG".data, m.take 50⟩ := by
          simp [entryOf, h, qdrantCheckConnection]
        rw [he]
        show containsSeq "🟢".data "🔴 接続NG".data = false
        decide
  · intro b' hne
    have hag := hagree b' hne
    cases b' <;> simp only [envAgreeAt] at hag <;> simp only [entryOf] <;>
      rw [hag]

/-- C4 witness: the theorem at a run in which exactly the Redis probe
raises and all other outcomes coincide. -/
theorem C4_witness :
    probeFailed envW Backend.redis = true
    ∧ isHealthy (entryOf envW Backend.redis) = false :=
  ⟨by decide,
    (C4_thm envW envW Backend.redis (by decide)
      (fun b' _ => by cases b' <;> rfl)).2.1⟩

/-- C5: the spec's invariant "healthy=false always carries a non-empty
detail" fails on the code: a raised exception whose text is empty (as
Python `Exception()` prints) produces an unhealthy entry whose detail is
the empty string. -/
theorem C5_counterexample :
    isHealthy (redisCheckConnection (.error [])) = false
    ∧ (redisCheckConnection (.error [])).details = [] :=
  ⟨by decide, by decide⟩

/-- C5 (amended): an unhealthy entry carries a non-empty detail provided
the underlying exception text is non-empty; the detail is at most 50
characters on every exception path (truncation `str(e)[:50]`) and on the
healthy path, and the non-200 HTTP path produces the non-empty detail
`Status: <code>`, which stays within 50 characters whenever the code
prints in at most 42 digits (always true of real HTTP status codes). -/
theorem C5_thm (m : List Char) (code : Nat) :
    (m ≠ [] →
      (redisCheckConnection (.error m)).details ≠ []
      ∧ (pgCheckConnection (.error m)).details ≠ []
      ∧ (esCheckConnection (.error m)).details ≠ []
      ∧ (qdrantCheckConnection (.error m)).details ≠ [])
    ∧ (redisCheckConnection (.error m)).details.length ≤ 50
    ∧ (pgCheckConnection (.error m)).details.length ≤ 50
    ∧ (esCheckConnection (.error m)).details.length ≤ 50
    ∧ (qdrantCheckConnection (.error m)).details.length ≤ 50
    ∧ (redisCheckConnection (.ok ())).details.length ≤ 50
    ∧ (pgCheckConnection (.ok ())).details.length ≤ 50
    ∧ (code ≠ 200 →
        isHealthy (esCheckConnection (.ok code)) = false
        ∧ (esCheckConnection (.ok code)).details ≠ []
        ∧ isHealthy (qdrantCheckConnection (.ok code)) = false
        ∧ (qdrantCheckConnection (.ok code)).details ≠ [])
    ∧ ((natToChars code).length ≤ 42 →
        (esCheckConnection (.ok code)).details.length ≤ 50
        ∧ (qdrantCheckConnection (.ok code)).details.length ≤ 50) := by
  have hlen : (m.take 50).length ≤ 50 := by
    rw [List.length_take]
    omega
  have hstatus : ("Status: ".data : List Char).length = 8 := by decide
  have hes : code ≠ 200 →
      esCheckConnection (.ok code)
        = ⟨"🔴 接続NG".data, "Status: ".data ++ natToChars code⟩ := by
    intro hc
    simp [esCheckConnection, hc]
  have hqd : code ≠ 200 →
      qdrantCheckConnection (.ok code)
        = ⟨"🔴 接続NG".data, "Status: ".data ++ natToChars code⟩ := by
    intro hc
    simp [qdrantCheckConnection, hc]
  refine ⟨fun hm => ⟨take50_ne_nil hm, take50_ne_nil hm, take50_ne_nil hm,
      take50_ne_nil hm⟩,
    hlen, hlen, hlen, hlen, by decide, by decide, ?_, ?_⟩
  · intro hc
    rw [hes hc, hqd hc]
    refine ⟨?_, ?_, ?_, ?_⟩
    · show containsSeq "🟢".data "🔴 接続NG".data = false
      decide
    · intro hcontra
      have := (List.append_eq_nil.mp hcontra).1
      exact absurd this (by decide)
    · show containsSeq "🟢".data "🔴 接続NG".data = false
      decide
    · intro hcontra
      have := (List.append_eq_nil.mp hcontra).1
      exact absurd this (by decide)
  · intro hd
    by_cases hc : code = 200
    · subst hc
      exact ⟨by decide, by decide⟩
    · rw [hes hc, hqd hc]
      constructor
      · show ("Status: ".data ++ natToChars code).length ≤ 50
        rw [List.length_append, hstatus]
        omega
      · show ("Status: ".data ++ natToChars code).length ≤ 50
        rw [List.length_append, hstatus]
        omega

/-- C5 witness: the amended theorem at a non-empty exception text. -/
theorem C5_witness :
    ("refused".data : List Char) ≠ []
    ∧ (redisCheckConnection (.error "refused".data)).details ≠ [] :=
  ⟨by decide, ((C5_thm "refused".data 200).1 (by decide)).1⟩

/-- C6: every summarize variant converts failure into a summary whose
status field is "error" instead of propagating it: a raised exception does
so for all four backends, a non-200 response does so for the
Elasticsearch and Qdrant variants, and every summary any variant returns
carries a status field. -/
theorem C6_thm (m1 m2 m3 m4 : List Char) (code cnt : Nat)
    (cols : List (List Char)) (hcode : code ≠ 200)
    (s1 : Except (List Char) (List (List Char)))
    (s2 : Except (List Char) (Nat × Nat × Nat))
    (s3 : Except (List Char) (Nat × Nat))
    (s4 : Except (List Char) (Nat × List (List Char))) :
    summaryStatus (redisGetDataSummary (.error m1)) = some (.s "error".data)
    ∧ summaryStatus (pgGetDataSummary (.error m2)) = some (.s "error".data)
    ∧ summaryStatus (esGetDataSummary (.error m3)) = some (.s "error".data)
    ∧ summaryStatus (qdrantGetDataSummary (.error m4)) = some (.s "error".data)
    ∧ summaryStatus (esGetDataSummary (.ok (code, cnt))) = some (.s "error".data)
    ∧ summaryStatus (qdrantGetDataSummary (.ok (code, cols)))
        = some (.s "error".data)
    ∧ (∃ v, summaryStatus (redisGetDataSummary s1) = some v)
    ∧ (∃ v, summaryStatus (pgGetDataSummary s2) = some v)
    ∧ (∃ v, summaryStatus (esGetDataSummary s3) = some v)
    ∧ (∃ v, summaryStatus (qdrantGetDataSummary s4) = some v) := by
  have hes : esGetDataSummary (.ok (code, cnt))
      = [("document_count".data, .s "?".data), ("status".data, .s "error".data)] := by
    simp [esGetDataSummary, hcode]
  have hqd : qdrantGetDataSummary (.ok (code, cols))
      = [("collection_count".data, .s "?".data), ("status".data, .s "error".data)] := by
    simp [qdrantGetDataSummary, hcode]
  refine ⟨rfl, rfl, rfl, rfl, by rw [hes]; rfl, by rw [hqd]; rfl, ?_, ?_, ?_, ?_⟩
  · cases s1 with
    | error m => exact ⟨_, rfl⟩
    | ok keys =>
      cases hsc : scanCountLoop keys 0 with
      | inl c =>
        refine ⟨.s "partial".data, ?_⟩
        simp only [redisGetDataSummary]
        rw [hsc]
        rfl
      | inr c =>
        refine ⟨.s "complete".data, ?_⟩
        simp only [redisGetDataSummary]
        rw [hsc]
        rfl
  · cases s2 with
    | error m => exact ⟨_, rfl⟩
    | ok val =>
      obtain ⟨c, o, p⟩ := val
      exact ⟨.s "complete".data, rfl⟩
  · cases s3 with
    | error m => exact ⟨_, rfl⟩
    | ok val =>
      obtain ⟨c, n⟩ := val
      by_cases hc : c = 200
      · subst hc
        exact ⟨.s "complete".data, rfl⟩
      · refine ⟨.s "error".data, ?_⟩
        have : esGetDataSummary (.ok (c, n))
            = [("document_count".data, .s "?".data),
               ("status".data, .s "error".data)] := by
          simp [esGetDataSummary, hc]
        rw [this]
        rfl
  · cases s4 with
    | error m => exact ⟨_, rfl⟩
    | ok val =>
      obtain ⟨c, cs⟩ := val
      by_cases hc : c = 200
      · subst hc
        exact ⟨.s "complete".data, rfl⟩
      · refine ⟨.s "error".data, ?_⟩
        have : qdrantGetDataSummary (.ok (c, cs))
            = [("collection_count".data, .s "?".data),
               ("status".data, .s "error".data)] := by
          simp [qdrantGetDataSummary, hc]
        rw [this]
        rfl

/-- C6 witness: the theorem at a concrete non-200 response. -/
theorem C6_witness :
    (500 : Nat) ≠ 200
    ∧ summaryStatus (esGetDataSummary (.ok (500, 0))) = some (.s "error".data) :=
  ⟨by decide,
    (C6_thm [] [] [] [] 500 0 [] (by decide)
      (.error []) (.error []) (.error []) (.error [])).2.2.2.2.1⟩

/-- C7: the spec-modelled StatusCache never returns an entry whose
`expiresAt` has strictly passed (`now > expiresAt`), and a get performed
exactly at the expiry boundary (`now = expiresAt`) still returns the
entry as valid. -/
theorem C7_thm {α : Type} (store : List (List Char × CacheEntry α))
    (key : List Char) (now : Nat) :
    (∀ v, statusCacheGet store key now = some v →
      ∃ e, lookupField key store = some e ∧ e.value = v ∧ now ≤ e.expiresAt)
    ∧ (∀ e, lookupField key store = some e → now = e.expiresAt →
        statusCacheGet store key now = some e.value) := by
  constructor
  · intro v hv
    unfold statusCacheGet at hv
    cases hl : lookupField key store with
    | none =>
      rw [hl] at hv
      have hv' : (none : Option α) = some v := hv
      cases hv'
    | some e =>
      rw [hl] at hv
      have hv' : (if now > e.expiresAt then (none : Option α) else some e.value)
          = some v := hv
      by_cases hexp : now > e.expiresAt
      · rw [if_pos hexp] at hv'; cases hv'
      · rw [if_neg hexp] at hv'
        injection hv' with hv'
        exact ⟨e, rfl, hv', by omega⟩
  · intro e hl heq
    unfold statusCacheGet
    rw [hl]
    show (if now > e.expiresAt then (none : Option α) else some e.value)
        = some e.value
    rw [if_neg (by omega)]

/-- C7 witness: the boundary case now = expiresAt at a concrete store. -/
theorem C7_witness :
    lookupField "Redis".data storeW = some ⟨7, 30⟩
    ∧ statusCacheGet storeW "Redis".data 30 = some 7 :=
  ⟨by decide, (C7_thm storeW "Redis".data 30).2 ⟨7, 30⟩ (by decide) rfl⟩

/-- C9: with more than 1000 keys the Redis summary stops at the 1001st key
and returns exactly key_count "1001+" with status "partial" and nothing
else; with at most 1000 keys it returns the exact count, status
"complete", and the session/counter key counts. -/
theorem C9_thm (keys : List (List Char)) :
    (keys.length > 1000 →
      redisGetDataSummary (.ok keys)
        = [("key_count".data, .s (natToChars 1001 ++ "+".data)),
           ("status".data, .s "partial".data)])
    ∧ (keys.length ≤ 1000 →
      redisGetDataSummary (.ok keys)
        = [("key_count".data, .s (natToChars keys.length)),
           ("status".data, .s "complete".data),
           ("session_count".data,
             .n (keys.filter (fun k => startsWithChars "session:".data k)).length),
           ("counter_count".data,
             .n (keys.filter (fun k => startsWithChars "counter:".data k)).length)]) := by
  have hs := scanCountLoop_spec keys 0 (by omega)
  rw [Nat.zero_add] at hs
  constructor
  · intro h
    simp only [redisGetDataSummary]
    rw [hs, if_pos (by omega)]
  · intro h
    simp only [redisGetDataSummary]
    rw [hs, if_neg (by omega)]

/-- C9 witness: the partial branch at a concrete 1001-key store. -/
theorem C9_witness :
    keysW.length > 1000
    ∧ redisGetDataSummary (.ok keysW)
        = [("key_count".data, .s (natToChars 1001 ++ "+".data)),
           ("status".data, .s "partial".data)] :=
  ⟨by rw [keysW, List.length_replicate]; omega,
    (C9_thm keysW).1 (by rw [keysW, List.length_replicate]; omega)⟩

/-- C10: on an empty or whitespace-only command the Redis executor raises
IndexError while indexing the empty token list, instead of producing an
error message through its rejection path. -/
theorem C10_thm (command : List Char)
    (h : ∀ c ∈ command, pyIsSpace c = true) :
    executeRedisCommand command = .indexError := by
  unfold executeRedisCommand
  rw [pyStrip_all_space command h]
  rfl

/-- C10 witness: the theorem at a whitespace-only command. -/
theorem C10_witness :
    (∀ c ∈ ("  ".data : List Char), pyIsSpace c = true)
    ∧ executeRedisCommand "  ".data = .indexError :=
  ⟨by decide, C10_thm "  ".data (by decide)⟩

end McpCore
